import Mathlib

/-!
Verification development for the regast declaration-lowering subsystem.

The definitions below are a shallow embedding of
`regast/parsing/declarations.py` (class `DeclarationParser`) and
`regast/core/declarations/struct.py` (class `Struct`).  Python exceptions
are modelled with `Except ParseError`; `AssertionError` stands for a failed
`assert`, `NameError` for reading an unbound local variable,
`AttributeError` for accessing a method the class does not define,
`ValueError`
for a failed fixed-length unpacking or an invalid enum constructor call,
`IndexError` for an out-of-range subscript.  Collaborator modules that are
not part of the lowering core (expression, type and variable resolvers, and
the `TreeSitterNode` wrapper) are modelled from the spec, as marked on each
definition.
-/

namespace Regast

/-- Modelled from the spec: a CST node (the read-only input contract of
section 6) exposes a type tag, an ordered list of children (keyword and
punctuation tokens included as leaf children) and the literal source text
it covers.  This stands for the `TreeSitterNode` wrapper class, which is
not part of the lowering core under verification. -/
inductive Node : Type where
  | mk (type : String) (children : List Node) (text : String) : Node

/-- The type tag of a CST node. -/
def Node.type : Node → String
  | .mk t _ _ => t

/-- The ordered children of a CST node. -/
def Node.children : Node → List Node
  | .mk _ c _ => c

/-- The literal source text covered by a CST node. -/
def Node.text : Node → String
  | .mk _ _ s => s

/-- Modelled from the spec: comparing a CST node against a string (as in
`node.children[0] == 'receive'` in the Python source) identifies a keyword
or punctuation token, whose type tag is the token text itself. -/
def Node.eqStr (n : Node) (s : String) : Bool := n.type == s

/-- Modelled from the spec: `len(node)` on the `TreeSitterNode` wrapper,
which is not under verification; the spec describes a node as an ordered
list of children, so the length of a node is its number of children. -/
def Node.pyLen (n : Node) : Nat := n.children.length

/-- The Python exceptions the lowering code can raise. -/
inductive ParseError : Type where
  | parsingException (msg : String)
  | assertionError
  | nameError (name : String)
  | attributeError (name : String)
  | valueError
  | indexError
deriving Repr, DecidableEq

/-- Identifier entity; equality is by name (spec, section 3). -/
structure Identifier where
  name : String
deriving Repr, DecidableEq

/-- Modelled from the spec: `ExpressionParser.parse_identifier`
(`resolve_identifier(node) -> Identifier`). -/
def parse_identifier (n : Node) : Identifier := ⟨n.text⟩

/-- Modelled from the spec: an expression entity produced by the Expression
Resolver; the resolver itself is an external collaborator, so the entity
just records the node it was resolved from. -/
structure Expression where
  node : Node

/-- Modelled from the spec: `ExpressionParser.parse_expression`
(`resolve_expression(node) -> Expression`). -/
def parse_expression (n : Node) : Expression := ⟨n⟩

/-- Modelled from the spec: the struct-argument set produced by the
Expression Resolver from a brace-delimited call argument. -/
structure StructArguments where
  node : Node

/-- Modelled from the spec: `ExpressionParser.parse_struct_arguments`
(`resolve_struct_arguments(node)`). -/
def parse_struct_arguments (n : Node) : StructArguments := ⟨n⟩

/-- Modelled from the spec: a user-defined type reference produced by the
Type Resolver. -/
structure UserDefinedType where
  node : Node

/-- Modelled from the spec: `TypeParser.parse_user_defined_type`
(`resolve_user_defined_type(node) -> TypeReference`). -/
def parse_user_defined_type (n : Node) : UserDefinedType := ⟨n⟩

/-- Modelled from the spec: a type produced by the Type Resolver. -/
structure TypeName where
  node : Node

/-- Modelled from the spec: `TypeParser.parse_type_name`
(`resolve_type(node) -> Type`). -/
def parse_type_name (n : Node) : TypeName := ⟨n⟩

/-- Modelled from the spec: a parameter entity from the Variable Resolver. -/
structure Parameter where
  node : Node

/-- Modelled from the spec: `VariableParser.parse_parameter`
(`resolve_parameter(node) -> Parameter`). -/
def parse_parameter (n : Node) : Parameter := ⟨n⟩

/-- Modelled from the spec: a state variable entity from the Variable
Resolver. -/
structure StateVariable where
  node : Node

/-- Modelled from the spec:
`VariableParser.parse_state_variable_declaration`. -/
def parse_state_variable_declaration (n : Node) : StateVariable := ⟨n⟩

/-- Modelled from the spec: a constant entity from the Variable Resolver. -/
structure Constant where
  node : Node

/-- Modelled from the spec:
`VariableParser.parse_constant_variable_declaration`. -/
def parse_constant_variable_declaration (n : Node) : Constant := ⟨n⟩

/-- The Python value `None`, as returned (and appended to buckets) by the
unimplemented leaf-declaration routines whose bodies are `pass`. -/
inductive PyNone : Type where
  | none
deriving Repr, DecidableEq

/-- `DeclarationParser.parse_error_declaration`: the body is `pass`, so the
call returns `None`. -/
def parse_error_declaration (_ : Node) : PyNone := .none

/-- `DeclarationParser.parse_enum_declaration`: the body is `pass`. -/
def parse_enum_declaration (_ : Node) : PyNone := .none

/-- `DeclarationParser.parse_struct_declaration`: the body is `pass`. -/
def parse_struct_declaration (_ : Node) : PyNone := .none

/-- `DeclarationParser.parse_event_definition`: the body is `pass`. -/
def parse_event_definition (_ : Node) : PyNone := .none

/-- `DeclarationParser.parse_user_defined_type_definition`: the body is
`pass`. -/
def parse_user_defined_type_definition (_ : Node) : PyNone := .none

/-- Modelled from the spec: the `Visibility` enum values
(section 3: external, public, internal, private); the Python enum
constructor raises `ValueError` on any other text. -/
def visibilityOf (s : String) : Except ParseError String :=
  if s == "external" || s == "public" || s == "internal" || s == "private" then
    .ok s
  else .error .valueError

/-- Modelled from the spec: the `StateMutability` enum values
(section 3: pure, view, payable, nonpayable). -/
def mutabilityOf (s : String) : Except ParseError String :=
  if s == "pure" || s == "view" || s == "payable" || s == "nonpayable" then
    .ok s
  else .error .valueError

/-- The five function-family entity classes `Function`, `Constructor`,
`Modifier`, `FallbackFunction`, `ReceiveFunction`, modelled from the spec
as a tagged variant (the classes themselves are collaborator code). -/
inductive CallableKind : Type where
  | function
  | ctor
  | modifier
  | fallback
  | receive
deriving Repr, DecidableEq

/-- A function-family entity under construction by
`DeclarationParser.parse_functions`; fields mirror the Python attributes
`_name`, `_parameters`, `_visibility`, `_mutability`, `_virtual`. -/
structure Callable where
  kind : CallableKind
  name : Option Identifier := none
  parameters : List Parameter := []
  visibility : Option String := none
  mutability : Option String := none
  virtual : Bool := false

/-- One iteration of the child loop of `DeclarationParser.parse_functions`
(declarations.py lines 377-414), dispatching one child by tag. -/
def funcStep (f : Callable) (child : Node) : Except ParseError Callable :=
  if child.type == "identifier" then
    if f.name.isSome then .error .assertionError
    else .ok { f with name := some (parse_identifier child) }
  else if child.type == "parameter" then
    .ok { f with parameters := f.parameters ++ [parse_parameter child] }
  else if child.type == "modifier_invocation" then
    .ok f
  else if child.type == "visibility" || child.type == "internal" || child.type == "public" then
    if f.visibility.isSome then .error .assertionError
    else
      match visibilityOf child.text with
      | .ok v => .ok { f with visibility := some v }
      | .error e => .error e
  else if child.type == "state_mutability" || child.type == "payable" then
    if f.mutability.isSome then .error .assertionError
    else
      match mutabilityOf child.text with
      | .ok m => .ok { f with mutability := some m }
      | .error e => .error e
  else if child.type == "virtual" then
    .ok { f with virtual := true }
  else if child.type == "override_specifier" then
    .ok f
  else if child.type == "return_type_definition" then
    .ok f
  else if child.type == "function_body" then
    .ok f
  else if child.type == "function" || child.type == "constructor" ||
          child.type == "modifier" || child.type == "fallback" ||
          child.type == "receive" || child.type == "(" ||
          child.type == ")" || child.type == "," then
    .ok f
  else
    .error (.parsingException ("Unknown tree-sitter node in function_definition: " ++ child.type))

/-- The node tags accepted by `DeclarationParser.parse_functions`. -/
def functionTags : List String :=
  ["function_definition", "constructor_definition", "modifier_definition",
   "fallback_receive_definition"]

/-- `DeclarationParser.parse_functions` (declarations.py lines 350-416):
select the entity variant from the node tag (for a
`fallback_receive_definition`, from its first child), then fold the child
dispatch over all children. -/
def parse_functions (node : Node) : Except ParseError Callable :=
  if !(functionTags.contains node.type) then .error .assertionError
  else
    let initE : Except ParseError Callable :=
      if node.type == "constructor_definition" then .ok { kind := .ctor }
      else if node.type == "function_definition" then .ok { kind := .function }
      else if node.type == "fallback_receive_definition" then
        match node.children with
        | [] => .error .indexError
        | c :: _ =>
          .ok { kind := if c.eqStr "receive" then .receive else .fallback }
      else if node.type == "modifier_definition" then .ok { kind := .modifier }
      else .error .assertionError
    match initE with
    | .ok init => node.children.foldlM funcStep init
    | .error e => .error e

/-- An inheritance specifier under construction by the inner function
`parse_inheritance_specifier` (declarations.py lines 102-130); fields
mirror `_name`, `_arguments` / the `arguments` property, and
`_struct_arguments`. -/
structure InheritanceSpecifier where
  name : Option UserDefinedType := none
  arguments : List Expression := []
  structArguments : Option StructArguments := none

/-- One iteration of the call-argument loop of
`parse_inheritance_specifier` (declarations.py lines 110-128).  The first
`call_argument` case is guarded by `len(child_node.children) == 1`, the
second by `len(child_node) == 1` (on the node itself, see `Node.pyLen`);
the second case asserts that the first child is a left brace and the last
child a right brace. -/
def inheritanceArgStep (s : InheritanceSpecifier) (child : Node) :
    Except ParseError InheritanceSpecifier :=
  if child.type == "call_argument" && child.children.length == 1 then
    .ok { s with arguments := s.arguments ++ [parse_expression child] }
  else if child.type == "call_argument" && child.pyLen == 1 then
    match child.children.head?, child.children.getLast? with
    | some a, some b =>
      if a.eqStr "\x7b" && b.eqStr "\x7d" then
        .ok { s with structArguments := some (parse_struct_arguments child) }
      else .error .assertionError
    | _, _ => .error .indexError
  else if child.type == "(" || child.type == ")" || child.type == "," then
    .ok s
  else
    .error (.parsingException ("Unknown tree-sitter node type for call_arguments: " ++ child.type))

/-- `parse_inheritance_specifier` (declarations.py lines 102-130): the
first child is the ancestor type, the remaining children are folded through
the call-argument dispatch.  Unpacking `ancestor, *ancestor_arguments`
raises `ValueError` on an empty child list. -/
def parse_inheritance_specifier (node : Node) :
    Except ParseError InheritanceSpecifier :=
  if !(node.type == "inheritance_specifier") then .error .assertionError
  else
    match node.children with
    | [] => .error .valueError
    | ancestor :: args =>
      args.foldlM inheritanceArgStep
        { name := some (parse_user_defined_type ancestor) }

/-- A using directive; fields mirror `_libraries`, `_any_type`, `_type` of
the `UsingDirective` entity. -/
structure UsingDirective where
  libraries : List UserDefinedType := []
  anyType : Bool := false
  type : Option TypeName := none

/-- `DeclarationParser.parse_using_directive` (declarations.py lines
327-347).  Unpacking the children into exactly four variables raises
`ValueError` otherwise; the token tags are then asserted. -/
def parse_using_directive (node : Node) : Except ParseError UsingDirective :=
  if !(node.type == "using_directive") then .error .assertionError
  else
    match node.children with
    | [usingToken, typeAlias, forToken, source] =>
      if usingToken.type == "using" && typeAlias.type == "type_alias" &&
         forToken.type == "for" then
        let base : UsingDirective := { libraries := [parse_user_defined_type typeAlias] }
        if source.type == "any_source_type" then
          .ok { base with anyType := true }
        else if source.type == "type_name" then
          .ok { base with type := some (parse_type_name source) }
        else
          .error (.parsingException ("Unknwon source type for using_directive: " ++ source.type))
      else .error .assertionError
    | _ => .error .valueError

/-- A pragma directive; fields mirror `_name` and `_value`. -/
structure Pragma where
  name : Option Identifier := none
  value : Option String := none

/-- `DeclarationParser.parse_pragma_directive` (declarations.py lines
301-325). -/
def parse_pragma_directive (node : Node) : Except ParseError Pragma :=
  if !(node.type == "pragma_directive") then .error .assertionError
  else
    match node.children with
    | [p, pragmaToken] =>
      if !(p.type == "pragma") then .error .assertionError
      else if pragmaToken.type == "any_pragma_token" then
        match pragmaToken.children with
        | [identifier, pragmaValue] =>
          .ok { name := some (parse_identifier identifier),
                value := some pragmaValue.text }
        | _ => .error .valueError
      else if pragmaToken.type == "solidity_pragma_token" then
        match pragmaToken.children with
        | [] => .error .valueError
        | solidity :: value =>
          if solidity.type == "solidity" then
            .ok { name := some (parse_identifier solidity),
                  value := some (String.join (value.map Node.text)) }
          else .error .assertionError
      else
        .error (.parsingException ("Unknown pragma_token for pragma_directive: " ++ pragmaToken.type))
    | _ => .error .valueError

/-- An import directive; fields mirror `_import_path`, `_alias`,
`_imported` and `_renaming` of the `Import` entity.  The renaming map is a
Python dict keyed by `Identifier` (equality by name); it is modelled as an
association list with in-place update on an existing key. -/
structure Import where
  importPath : Option String := none
  aliasText : Option String := none
  imported : List Identifier := []
  renamingMap : List (Identifier × Identifier) := []

/-- Insertion into the renaming dict: update the value at an existing key,
append a new binding otherwise. -/
def renamingInsert (m : List (Identifier × Identifier)) (k v : Identifier) :
    List (Identifier × Identifier) :=
  if m.any (fun p => p.fst == k) then
    m.map (fun p => if p.fst == k then (p.fst, v) else p)
  else m ++ [(k, v)]

/-- The comma-splitting loop over the declarations of a multiple-import
clause (declarations.py lines 267-290): the slice between consecutive
commas (or list ends) forms one segment; empty segments are produced by
leading, trailing or doubled commas and by an empty list. -/
def splitOnComma : List Node → List (List Node)
  | [] => [[]]
  | n :: rest =>
    if n.type == "," then [] :: splitOnComma rest
    else
      match splitOnComma rest with
      | g :: gs => (n :: g) :: gs
      | [] => [[n]]

/-- Processing of one comma-delimited segment of a multiple-import clause
(declarations.py lines 270-288): a lone identifier is appended to the
imported list; an `identifier as identifier` triple additionally records a
renaming; any other shape raises. -/
def importSegmentStep (fullText : String) (acc : Import) (seg : List Node) :
    Except ParseError Import :=
  match seg with
  | [importName] =>
    if importName.type == "identifier" then
      .ok { acc with imported := acc.imported ++ [parse_identifier importName] }
    else
      .error (.parsingException ("Unable to parse import_clause with multiple imports for import_directive: " ++ fullText))
  | [importName, asTok, aliasN] =>
    if importName.type == "identifier" && asTok.type == "as" &&
       aliasN.type == "identifier" then
      let ii := parse_identifier importName
      .ok { acc with imported := acc.imported ++ [ii],
                     renamingMap := renamingInsert acc.renamingMap ii (parse_identifier aliasN) }
    else
      .error (.parsingException ("Unable to parse import_clause with multiple imports for import_directive: " ++ fullText))
  | _ =>
    .error (.parsingException ("Unable to parse import_clause with multiple imports for import_directive: " ++ fullText))

/-- The inner `match import_clause_types` of
`DeclarationParser.parse_import_directive` (declarations.py lines 246-293),
after the import path has been recorded: single import, single import with
alias (the alias token tag is `string` in the source), or a brace-delimited
multiple import. -/
def parseImportClause (node source : Node) (clause : List Node) :
    Except ParseError Import :=
  let ctypes := clause.map Node.type
  let base : Import := { importPath := some source.text }
  if ctypes == ["*"] || ctypes == ["identifier"] then
    match clause with
    | [a] => .ok { base with imported := [parse_identifier a] }
    | _ => .error .valueError
  else if ctypes == ["*", "as", "string"] || ctypes == ["identifier", "as", "string"] then
    match clause with
    | [a, _, b] =>
      let ii := parse_identifier a
      .ok { base with imported := [ii],
                      renamingMap := renamingInsert [] ii (parse_identifier b) }
    | _ => .error .valueError
  else if 2 ≤ clause.length && ctypes.head? == some "\x7b" && ctypes.getLast? == some "\x7d" then
    (splitOnComma ((clause.drop 1).dropLast)).foldlM (importSegmentStep node.text) base
  else
    .error (.parsingException ("Unable to parse import_clause for import_directive: " ++ node.text))

/-- `DeclarationParser.parse_import_directive` (declarations.py lines
224-298): the outer `match` on the child tag list, in source order — plain
source import, source import with alias, then the
`['import', *clause, 'from', 'string']` shape. -/
def parse_import_directive (node : Node) : Except ParseError Import :=
  if !(node.type == "import_directive") then .error .assertionError
  else
    let ts := node.children.map Node.type
    if ts == ["import", "string"] then
      match node.children with
      | [_, source] => .ok { importPath := some source.text }
      | _ => .error .valueError
    else if ts == ["import", "string", "as", "identifier"] then
      match node.children with
      | [_, source, _, aliasN] =>
        .ok { importPath := some source.text, aliasText := some aliasN.text }
      | _ => .error .valueError
    else
      match node.children with
      | c0 :: rest =>
        if c0.type == "import" then
          match rest.reverse with
          | sourceN :: fromN :: midRev =>
            if fromN.type == "from" && sourceN.type == "string" then
              parseImportClause node sourceN midRev.reverse
            else
              .error (.parsingException ("Unable to parse import_directive: " ++ node.text))
          | _ => .error (.parsingException ("Unable to parse import_directive: " ++ node.text))
        else .error (.parsingException ("Unable to parse import_directive: " ++ node.text))
      | [] => .error (.parsingException ("Unable to parse import_directive: " ++ node.text))

/-- The three contract-family entity classes `Contract`, `Interface`,
`Library`, modelled from the spec as a tagged variant (the classes
themselves are collaborator code). -/
inductive ContractKind : Type where
  | contract
  | interface
  | lib
deriving Repr, DecidableEq

/-- A contract-family entity under construction by
`DeclarationParser.parse_contracts`; fields mirror the Python attributes
(`ctor` stands for `_constructor`). -/
structure ContractLike where
  kind : ContractKind
  name : Option Identifier := none
  abstract : Bool := false
  inheritanceSpecifiers : List InheritanceSpecifier := []
  functions : List Callable := []
  modifiers : List Callable := []
  customErrors : List PyNone := []
  stateVariables : List StateVariable := []
  structs : List PyNone := []
  enums : List PyNone := []
  events : List PyNone := []
  usingDirectives : List UsingDirective := []
  ctor : Option Callable := none
  fallbackFunction : Option Callable := none
  receiveFunction : Option Callable := none
  typeDefinitions : List PyNone := []

/-- One iteration of the member loop of the inner function
`parse_contract_body` (declarations.py lines 132-198).  The constructor
case asserts the constructor slot empty before parsing; the
fallback-receive case parses first, then asserts the respective slot empty;
a result that is neither fallback nor receive is silently dropped (the
exception in the source is commented out). -/
def contractBodyStep (c : ContractLike) (child : Node) :
    Except ParseError ContractLike :=
  if child.type == "function_definition" then
    match parse_functions child with
    | .ok f =>
      if f.kind == CallableKind.function then
        .ok { c with functions := c.functions ++ [f] }
      else .error .assertionError
    | .error e => .error e
  else if child.type == "modifier_definition" then
    match parse_functions child with
    | .ok m =>
      if m.kind == CallableKind.modifier then
        .ok { c with modifiers := c.modifiers ++ [m] }
      else .error .assertionError
    | .error e => .error e
  else if child.type == "error_declaration" then
    .ok { c with customErrors := c.customErrors ++ [parse_error_declaration child] }
  else if child.type == "state_variable_declaration" then
    .ok { c with stateVariables := c.stateVariables ++ [parse_state_variable_declaration child] }
  else if child.type == "struct_declaration" then
    .ok { c with structs := c.structs ++ [parse_struct_declaration child] }
  else if child.type == "enum_declaration" then
    .ok { c with enums := c.enums ++ [parse_enum_declaration child] }
  else if child.type == "event_definition" then
    .ok { c with events := c.events ++ [parse_event_definition child] }
  else if child.type == "using_directive" then
    match parse_using_directive child with
    | .ok u => .ok { c with usingDirectives := c.usingDirectives ++ [u] }
    | .error e => .error e
  else if child.type == "constructor_definition" then
    if c.ctor.isSome then .error .assertionError
    else
      match parse_functions child with
      | .ok k =>
        if k.kind == CallableKind.ctor then .ok { c with ctor := some k }
        else .error .assertionError
      | .error e => .error e
  else if child.type == "fallback_receive_definition" then
    match parse_functions child with
    | .ok f =>
      if f.kind == CallableKind.fallback then
        if c.fallbackFunction.isSome then .error .assertionError
        else .ok { c with fallbackFunction := some f }
      else if f.kind == CallableKind.receive then
        if c.receiveFunction.isSome then .error .assertionError
        else .ok { c with receiveFunction := some f }
      else .ok c
    | .error e => .error e
  else if child.type == "user_defined_type_definition" then
    .ok { c with typeDefinitions := c.typeDefinitions ++ [parse_user_defined_type_definition child] }
  else if child.type == "\x7b" || child.type == "\x7d" then
    .ok c
  else
    .error (.parsingException ("Unknown tree-sitter node type for contract member: " ++ child.type))

/-- One iteration of the outer child loop of
`DeclarationParser.parse_contracts` (declarations.py lines 200-219): an
`abstract` token sets the flag, an identifier sets the name once, an
inheritance specifier or a contract body is lowered, keyword and comma
tokens are skipped, anything else raises. -/
def contractStep (c : ContractLike) (child : Node) :
    Except ParseError ContractLike :=
  if child.type == "abstract" then
    .ok { c with abstract := true }
  else if child.type == "identifier" then
    if c.name.isSome then .error .assertionError
    else .ok { c with name := some (parse_identifier child) }
  else if child.type == "inheritance_specifier" then
    match parse_inheritance_specifier child with
    | .ok s => .ok { c with inheritanceSpecifiers := c.inheritanceSpecifiers ++ [s] }
    | .error e => .error e
  else if child.type == "contract_body" then
    child.children.foldlM contractBodyStep c
  else if child.type == "contract" || child.type == "interface" ||
          child.type == "library" || child.type == "is" || child.type == "," then
    .ok c
  else
    .error (.parsingException ("Unknown tree-sitter node for contract_declaration: " ++ child.type))

/-- The node tags accepted by `DeclarationParser.parse_contracts`. -/
def contractTags : List String :=
  ["contract_declaration", "interface_declaration", "library_declaration"]

/-- `DeclarationParser.parse_contracts` (declarations.py lines 89-221):
select the entity variant from the node tag, then fold the child dispatch
over all children. -/
def parse_contracts (node : Node) : Except ParseError ContractLike :=
  if !(contractTags.contains node.type) then .error .assertionError
  else
    let init : ContractLike :=
      if node.type == "contract_declaration" then { kind := .contract }
      else if node.type == "interface_declaration" then { kind := .interface }
      else { kind := .lib }
    node.children.foldlM contractStep init

/-- The file-level AST root; the eleven buckets mirror the `SourceUnit`
attributes, in declaration order.  The bucket element types follow what
the source actually appends: the contract buckets receive whatever
`parse_contracts` returned (Python lists are untyped), and the
error/struct/enum/type-definition buckets receive the `None` results of
the unimplemented leaf routines. -/
structure SourceUnit where
  fname : String
  pragmaDirectives : List Pragma := []
  importDirectives : List Import := []
  contracts : List ContractLike := []
  interfaces : List ContractLike := []
  libraries : List ContractLike := []
  customErrors : List PyNone := []
  structs : List PyNone := []
  enums : List PyNone := []
  functions : List Callable := []
  constants : List Constant := []
  typeDefinitions : List PyNone := []

/-- One iteration of the top-level child loop of
`DeclarationParser.parse_source_unit` (declarations.py lines 28-84).  The
second component of the state is the Python local variable `contract`: in
the source, the `interface_declaration` arm appends the local `contract`
(line 48) — not the freshly parsed `interface` — so the arm reads the value
left by an earlier `contract_declaration` iteration and raises `NameError`
when no such iteration happened.  The `function_definition` arm (line 69)
calls `DeclarationParser.parse_function_definition`, a method the class
does not define anywhere, so that arm raises `AttributeError` on the
lookup before anything is parsed or appended. -/
def sourceUnitStep (acc : SourceUnit × Option ContractLike) (child : Node) :
    Except ParseError (SourceUnit × Option ContractLike) :=
  let u := acc.fst
  let contractVar := acc.snd
  if child.type == "pragma_directive" then
    match parse_pragma_directive child with
    | .ok p => .ok ({ u with pragmaDirectives := u.pragmaDirectives ++ [p] }, contractVar)
    | .error e => .error e
  else if child.type == "import_directive" then
    match parse_import_directive child with
    | .ok i => .ok ({ u with importDirectives := u.importDirectives ++ [i] }, contractVar)
    | .error e => .error e
  else if child.type == "contract_declaration" then
    match parse_contracts child with
    | .ok c =>
      if c.kind == ContractKind.contract then
        .ok ({ u with contracts := u.contracts ++ [c] }, some c)
      else .error .assertionError
    | .error e => .error e
  else if child.type == "interface_declaration" then
    match parse_contracts child with
    | .ok i =>
      if i.kind == ContractKind.interface then
        match contractVar with
        | some cprev => .ok ({ u with interfaces := u.interfaces ++ [cprev] }, contractVar)
        | none => .error (.nameError "contract")
      else .error .assertionError
    | .error e => .error e
  else if child.type == "library_declaration" then
    match parse_contracts child with
    | .ok l =>
      if l.kind == ContractKind.lib then
        .ok ({ u with libraries := u.libraries ++ [l] }, contractVar)
      else .error .assertionError
    | .error e => .error e
  else if child.type == "error_declaration" then
    .ok ({ u with customErrors := u.customErrors ++ [parse_error_declaration child] }, contractVar)
  else if child.type == "struct_declaration" then
    .ok ({ u with structs := u.structs ++ [parse_struct_declaration child] }, contractVar)
  else if child.type == "enum_declaration" then
    .ok ({ u with enums := u.enums ++ [parse_enum_declaration child] }, contractVar)
  else if child.type == "function_definition" then
    .error (.attributeError "parse_function_definition")
  else if child.type == "constant_variable_declaration" then
    .ok ({ u with constants := u.constants ++ [parse_constant_variable_declaration child] }, contractVar)
  else if child.type == "user_defined_type_definition" then
    .ok ({ u with typeDefinitions := u.typeDefinitions ++ [parse_user_defined_type_definition child] }, contractVar)
  else if child.type == "ERROR" then
    .ok (u, contractVar)
  else
    .error (.parsingException ("Unknown tree-sitter node for source_unit: " ++ child.type))

/-- `DeclarationParser.parse_source_unit` (declarations.py lines 23-86):
assert the node is a source file, then fold the top-level dispatch over the
children, starting with empty buckets and the local `contract` unbound. -/
def parse_source_unit (node : Node) (fname : String) :
    Except ParseError SourceUnit :=
  if node.type == "source_file" then
    match node.children.foldlM sourceUnitStep ({ fname := fname }, none) with
    | .ok (u, _) => .ok u
    | .error e => .error e
  else .error .assertionError

/-- A struct member (`StructMember`): name plus type reference; modelled
from the spec (the class is collaborator code), with the type reference
kept as an opaque string. -/
structure StructMember where
  name : Identifier
  type : String
deriving Repr, DecidableEq

/-- The `Struct` entity of `regast/core/declarations/struct.py`: a name and
an ordered member list. -/
structure Struct where
  name : Identifier
  members : List StructMember
deriving Repr, DecidableEq

/-- `Identifier.__eq__`: equality by name (spec, section 3). -/
def Identifier.beq (a b : Identifier) : Bool := a.name == b.name

/-- `StructMember.__eq__`: structural equality on name and type reference
(modelled from the spec, section 3). -/
def StructMember.beq (a b : StructMember) : Bool :=
  Identifier.beq a.name b.name && a.type == b.type

/-- Python list equality on member lists: same length and elementwise
equal. -/
def membersBeq : List StructMember → List StructMember → Bool
  | [], [] => true
  | a :: xs, b :: ys => StructMember.beq a b && membersBeq xs ys
  | _, _ => false

/-- `Struct.__eq__` (struct.py lines 26-29), restricted to the case where
the other operand is a `Struct`: compare names and member lists. -/
def Struct.beq (a b : Struct) : Bool :=
  Identifier.beq a.name b.name && membersBeq a.members b.members

/-- A Python value handed to `Struct.__eq__` as the right operand: a
`Struct`, or a value of an unrelated type (`None`, an int, a string, a
bool). -/
inductive PyValue : Type where
  | structV (s : Struct)
  | noneV
  | intV (n : Int)
  | strV (s : String)
  | boolV (b : Bool)
deriving DecidableEq

/-- `Struct.__eq__` (struct.py lines 26-29) in full: an `isinstance` check
sends a `Struct` operand to the structural comparison and anything else to
`False`. -/
def Struct.eqPy (s : Struct) (v : PyValue) : Bool :=
  match v with
  | .structV t => Struct.beq s t
  | _ => false

/-- `isinstance(other, Struct)` as a boolean on modelled Python values. -/
def PyValue.isStructInstance : PyValue → Bool
  | .structV _ => true
  | _ => false

/-! Concrete demo CST nodes used by witnesses and counterexamples. -/

/-- A keyword or punctuation token: its tag is its text. -/
def tok (s : String) : Node := .mk s [] s

/-- An identifier leaf with the given text. -/
def idNode (s : String) : Node := .mk "identifier" [] s

/-- A string literal leaf with the given content. -/
def strNode (s : String) : Node := .mk "string" [] s

/-- A number literal leaf. -/
def litNode (s : String) : Node := .mk "number_literal" [] s

/-- An empty contract body: only the two brace tokens. -/
def emptyBody : Node := .mk "contract_body" [tok "\x7b", tok "\x7d"] ""

/-- CST of `contract A { }`. -/
def demoContractA : Node :=
  .mk "contract_declaration" [tok "contract", idNode "A", emptyBody] ""

/-- CST of `interface I { }`. -/
def demoInterfaceI : Node :=
  .mk "interface_declaration" [tok "interface", idNode "I", emptyBody] ""

/-- CST of `constructor() { }` (body omitted). -/
def ctorDef : Node :=
  .mk "constructor_definition" [tok "constructor", tok "(", tok ")"] ""

/-- CST of `fallback() ...`. -/
def fallbackDef : Node :=
  .mk "fallback_receive_definition" [tok "fallback", tok "(", tok ")"] ""

/-- CST of `receive() ...`. -/
def receiveDef : Node :=
  .mk "fallback_receive_definition" [tok "receive", tok "(", tok ")"] ""

/-- CST of `contract C { fallback() ... receive() ... }`. -/
def demoTwoSlots : Node := .mk "contract_declaration"
  [tok "contract", idNode "C",
   .mk "contract_body" [tok "\x7b", fallbackDef, receiveDef, tok "\x7d"] ""] ""

/-- The ancestor type reference node `B`. -/
def udtB : Node := .mk "user_defined_type" [] "B"

/-- Call argument `1`: a `call_argument` with a single nested expression. -/
def callArg1 : Node := .mk "call_argument" [litNode "1"] "1"

/-- Call argument `2`. -/
def callArg2 : Node := .mk "call_argument" [litNode "2"] "2"

/-- Inheritance specifier of `contract C is B(1, 2)`. -/
def demoSpecPositional : Node := .mk "inheritance_specifier"
  [udtB, tok "(", callArg1, tok ",", callArg2, tok ")"] ""

/-- The brace-delimited call argument of `B(\x7bx: 1\x7d)`: children are
the left brace, the field name, the colon, the value, the right brace. -/
def structCallArg : Node := .mk "call_argument"
  [tok "\x7b", idNode "x", tok ":", litNode "1", tok "\x7d"] "\x7bx: 1\x7d"

/-- Inheritance specifier of `contract C is B(\x7bx: 1\x7d)`. -/
def demoSpecStruct : Node := .mk "inheritance_specifier"
  [udtB, tok "(", structCallArg, tok ")"] ""

/-- CST of `abstract interface I { }`: an `abstract` token under an
interface declaration. -/
def demoAbstractInterface : Node := .mk "interface_declaration"
  [tok "abstract", tok "interface", idNode "I", emptyBody] ""

/-- CST of `import "a.sol";`. -/
def imp1 : Node := .mk "import_directive" [tok "import", strNode "a.sol"] ""

/-- CST of `import "a.sol" as A;`. -/
def imp2 : Node :=
  .mk "import_directive" [tok "import", strNode "a.sol", tok "as", idNode "A"] ""

/-- CST of `import \x7bX as Y, Z\x7d from "a.sol";`. -/
def imp3 : Node := .mk "import_directive"
  [tok "import", tok "\x7b", idNode "X", tok "as", idNode "Y", tok ",",
   idNode "Z", tok "\x7d", tok "from", strNode "a.sol"] ""

/-- A top-level `function_definition` node (`function f() ...`). -/
def funcDefNode : Node :=
  .mk "function_definition" [tok "function", idNode "f", tok "(", tok ")"] ""

/-- A top-level `error_declaration` node. -/
def errDecl : Node := .mk "error_declaration" [] ""

/-- A top-level `struct_declaration` node. -/
def structDecl : Node := .mk "struct_declaration" [] ""

/-- A top-level `enum_declaration` node. -/
def enumDecl : Node := .mk "enum_declaration" [] ""

/-- An `event_definition` node. -/
def eventDef : Node := .mk "event_definition" [] ""

/-- A `user_defined_type_definition` node. -/
def udtdDef : Node := .mk "user_defined_type_definition" [] ""

/-- A child node with a tag outside every recognized set. -/
def bananaNode : Node := .mk "banana_tag" [] ""

/-- A contract whose three singleton slots are already filled. -/
def demoFilledContract : ContractLike :=
  { kind := .contract, ctor := some { kind := .ctor },
    fallbackFunction := some { kind := .fallback },
    receiveFunction := some { kind := .receive } }

/-- An empty source unit used as witness state. -/
def demoUnit : SourceUnit := { fname := "w.sol" }

/-- An interface entity used as witness state. -/
def demoInterfaceBase : ContractLike := { kind := .interface }

/-- The top-level child tags recognized by `parse_source_unit`: the eleven
handled tags plus the skipped syntax-error tag `ERROR`. -/
def sourceUnitRecognizedTags : List String :=
  ["pragma_directive", "import_directive", "contract_declaration",
   "interface_declaration", "library_declaration", "error_declaration",
   "struct_declaration", "enum_declaration", "function_definition",
   "constant_variable_declaration", "user_defined_type_definition", "ERROR"]

/-- The child tags recognized by the outer loop of `parse_contracts`:
handled tags plus the ignored keyword and comma tokens. -/
def contractRecognizedTags : List String :=
  ["abstract", "identifier", "inheritance_specifier", "contract_body",
   "contract", "interface", "library", "is", ","]

/-- The member tags recognized by `parse_contract_body`: handled tags plus
the ignored brace tokens. -/
def contractBodyRecognizedTags : List String :=
  ["function_definition", "modifier_definition", "error_declaration",
   "state_variable_declaration", "struct_declaration", "enum_declaration",
   "event_definition", "using_directive", "constructor_definition",
   "fallback_receive_definition", "user_defined_type_definition",
   "\x7b", "\x7d"]

/-- The call-argument tags recognized inside an inheritance specifier:
`call_argument` plus the ignored punctuation tokens. -/
def callArgumentRecognizedTags : List String :=
  ["call_argument", "(", ")", ","]

/-- The child tags recognized by the loop of `parse_functions`: handled
tags plus the ignored keyword and punctuation tokens. -/
def functionRecognizedTags : List String :=
  ["identifier", "parameter", "modifier_invocation", "visibility",
   "internal", "public", "state_mutability", "payable", "virtual",
   "override_specifier", "return_type_definition", "function_body",
   "function", "constructor", "modifier", "fallback", "receive",
   "(", ")", ","]

/-! Helper lemmas about the function-family child dispatch. -/

set_option maxHeartbeats 1600000 in
/-- A successful `funcStep` never changes the variant selected before the
traversal. -/
theorem funcStep_ok_kind {f : Callable} {c : Node} {f' : Callable}
    (h : funcStep f c = .ok f') : f'.kind = f.kind := by
  unfold funcStep at h
  split_ifs at h <;> (try split at h) <;>
    first
      | exact Except.noConfusion h
      | (injection h with h; subst h; rfl)

set_option maxHeartbeats 1600000 in
/-- A successful `funcStep` on a child that is not an identifier leaves the
name unchanged. -/
theorem funcStep_ok_name {f : Callable} {c : Node} {f' : Callable}
    (h : funcStep f c = .ok f') (hne : c.type ≠ "identifier") :
    f'.name = f.name := by
  unfold funcStep at h
  split_ifs at h with h1 <;> (try split at h) <;>
    first
      | exact Except.noConfusion h
      | (exact absurd (by simpa using h1) hne)
      | (injection h with h; subst h; rfl)

/-- A successful child fold keeps the variant of the initial entity. -/
theorem foldlM_funcStep_kind :
    ∀ (l : List Node) (f f' : Callable),
      l.foldlM funcStep f = .ok f' → f'.kind = f.kind := by
  intro l
  induction l with
  | nil =>
    intro f f' h
    simp only [List.foldlM_nil] at h
    injection h with h
    subst h
    rfl
  | cons a l ih =>
    intro f f' h
    rw [List.foldlM_cons] at h
    cases hs : funcStep f a with
    | error e => rw [hs] at h; exact Except.noConfusion h
    | ok g =>
      rw [hs] at h
      replace h : List.foldlM funcStep g l = Except.ok f' := h
      exact (ih g f' h).trans (funcStep_ok_kind hs)

/-- A successful child fold over children none of which is an identifier
keeps the (absent) name of the initial entity. -/
theorem foldlM_funcStep_name :
    ∀ (l : List Node) (f f' : Callable),
      l.foldlM funcStep f = .ok f' →
      (∀ c ∈ l, c.type ≠ "identifier") → f'.name = f.name := by
  intro l
  induction l with
  | nil =>
    intro f f' h _
    simp only [List.foldlM_nil] at h
    injection h with h
    subst h
    rfl
  | cons a l ih =>
    intro f f' h hall
    rw [List.foldlM_cons] at h
    cases hs : funcStep f a with
    | error e => rw [hs] at h; exact Except.noConfusion h
    | ok g =>
      rw [hs] at h
      replace h : List.foldlM funcStep g l = Except.ok f' := h
      have h1 := ih g f' h (fun c hc => hall c (List.mem_cons_of_mem a hc))
      have h2 := funcStep_ok_name hs (hall a (List.mem_cons_self a l))
      exact h1.trans h2

/-! Claim theorems. -/

/-- C1: lowering a source file with one `contract_declaration` (contract
`A`) followed by one `interface_declaration` (interface `I`) succeeds, but
the `interfaces` bucket receives the previously parsed *contract* `A`
instead of the interface `I` (declarations.py line 48 appends the stale
local `contract`); with no preceding contract declaration the same arm
reads an unbound local and lowering fails with a `NameError`.  Hence a
file lowered without error does not in general hold `n` Interface entities
in its `interfaces` bucket, refuting the claimed bucket correspondence.
In addition, the `functions` bucket is unreachable: the top-level
`function_definition` arm (line 69) calls a method that does not exist, so
any file with a top-level function definition fails with an
`AttributeError`. -/
theorem c1_interface_bucket_bug :
    parse_source_unit (.mk "source_file" [demoContractA, demoInterfaceI] "") "demo.sol"
      = .ok { fname := "demo.sol",
              contracts := [{ kind := .contract, name := some ⟨"A"⟩ }],
              interfaces := [{ kind := .contract, name := some ⟨"A"⟩ }] }
  ∧ parse_source_unit (.mk "source_file" [demoInterfaceI] "") "demo.sol"
      = .error (.nameError "contract")
  ∧ parse_source_unit (.mk "source_file" [funcDefNode] "") "demo.sol"
      = .error (.attributeError "parse_function_definition") :=
  ⟨rfl, rfl, rfl⟩

/-- C2: a second constructor definition while the constructor slot is
filled raises an assertion failure (the structural-invariant violation);
likewise a second fallback definition while the fallback slot is filled,
and a second receive definition while the receive slot is filled; and the
two slots are independent: a body holding one fallback and one receive
lowers with both singleton slots filled and no error. -/
theorem c2_singleton_slots :
    (∀ (c : ContractLike) (child : Node),
        c.ctor.isSome = true → child.type = "constructor_definition" →
        contractBodyStep c child = .error .assertionError)
  ∧ (∀ (c : ContractLike) (child : Node) (f : Callable),
        c.fallbackFunction.isSome = true →
        child.type = "fallback_receive_definition" →
        parse_functions child = .ok f → f.kind = CallableKind.fallback →
        contractBodyStep c child = .error .assertionError)
  ∧ (∀ (c : ContractLike) (child : Node) (f : Callable),
        c.receiveFunction.isSome = true →
        child.type = "fallback_receive_definition" →
        parse_functions child = .ok f → f.kind = CallableKind.receive →
        contractBodyStep c child = .error .assertionError)
  ∧ parse_contracts demoTwoSlots
      = .ok { kind := .contract, name := some ⟨"C"⟩,
              fallbackFunction := some { kind := .fallback },
              receiveFunction := some { kind := .receive } } := by
  refine ⟨?_, ?_, ?_, rfl⟩
  · intro c child h1 h2
    simp [contractBodyStep, h1, h2]
  · intro c child f h1 h2 h3 h4
    simp [contractBodyStep, h1, h2, h3, h4]
  · intro c child f h1 h2 h3 h4
    simp [contractBodyStep, h1, h2, h3, h4]

/-- C2 witness: the three assertion failures at a contract whose three
slots are filled, fed a concrete second constructor, fallback and receive
definition. -/
theorem c2_witness :
    contractBodyStep demoFilledContract ctorDef = .error .assertionError
  ∧ contractBodyStep demoFilledContract fallbackDef = .error .assertionError
  ∧ contractBodyStep demoFilledContract receiveDef = .error .assertionError :=
  ⟨c2_singleton_slots.1 demoFilledContract ctorDef rfl rfl,
   c2_singleton_slots.2.1 demoFilledContract fallbackDef { kind := .fallback } rfl rfl rfl rfl,
   c2_singleton_slots.2.2.1 demoFilledContract receiveDef { kind := .receive } rfl rfl rfl rfl⟩

/-- C3: in each dispatch context (source-file top level, contract
declaration, contract body, inheritance call arguments, function
definition), a child whose tag is outside the recognized set — handlers
plus the ignored pure-punctuation tokens — makes lowering fail with a
`ParsingException` whose message names the offending tag; the single
exception is the `ERROR` tag at source-file top level, which is silently
skipped (and is not skipped in any other context, since it is absent from
their recognized sets). -/
theorem c3_fail_closed_dispatch :
    (∀ (u : SourceUnit) (cv : Option ContractLike) (child : Node),
        child.type ∉ sourceUnitRecognizedTags →
        sourceUnitStep (u, cv) child =
          .error (.parsingException ("Unknown tree-sitter node for source_unit: " ++ child.type)))
  ∧ (∀ (u : SourceUnit) (cv : Option ContractLike) (child : Node),
        child.type = "ERROR" → sourceUnitStep (u, cv) child = .ok (u, cv))
  ∧ (∀ (c : ContractLike) (child : Node),
        child.type ∉ contractRecognizedTags →
        contractStep c child =
          .error (.parsingException ("Unknown tree-sitter node for contract_declaration: " ++ child.type)))
  ∧ (∀ (c : ContractLike) (child : Node),
        child.type ∉ contractBodyRecognizedTags →
        contractBodyStep c child =
          .error (.parsingException ("Unknown tree-sitter node type for contract member: " ++ child.type)))
  ∧ (∀ (s : InheritanceSpecifier) (child : Node),
        child.type ∉ callArgumentRecognizedTags →
        inheritanceArgStep s child =
          .error (.parsingException ("Unknown tree-sitter node type for call_arguments: " ++ child.type)))
  ∧ (∀ (f : Callable) (child : Node),
        child.type ∉ functionRecognizedTags →
        funcStep f child =
          .error (.parsingException ("Unknown tree-sitter node in function_definition: " ++ child.type))) := by
  refine ⟨?_, ?_, ?_, ?_, ?_, ?_⟩
  · intro u cv child h
    simp only [sourceUnitRecognizedTags, List.mem_cons, List.not_mem_nil, or_false, not_or] at h
    obtain ⟨h1, h2, h3, h4, h5, h6, h7, h8, h9, h10, h11, h12⟩ := h
    simp [sourceUnitStep, h1, h2, h3, h4, h5, h6, h7, h8, h9, h10, h11, h12]
  · intro u cv child h
    simp [sourceUnitStep, h]
  · intro c child h
    simp only [contractRecognizedTags, List.mem_cons, List.not_mem_nil, or_false, not_or] at h
    obtain ⟨h1, h2, h3, h4, h5, h6, h7, h8, h9⟩ := h
    simp [contractStep, h1, h2, h3, h4, h5, h6, h7, h8, h9]
  · intro c child h
    simp only [contractBodyRecognizedTags, List.mem_cons, List.not_mem_nil, or_false, not_or] at h
    obtain ⟨h1, h2, h3, h4, h5, h6, h7, h8, h9, h10, h11, h12, h13⟩ := h
    simp [contractBodyStep, h1, h2, h3, h4, h5, h6, h7, h8, h9, h10, h11, h12, h13]
  · intro s child h
    simp only [callArgumentRecognizedTags, List.mem_cons, List.not_mem_nil, or_false, not_or] at h
    obtain ⟨h1, h2, h3, h4⟩ := h
    simp [inheritanceArgStep, h1, h2, h3, h4]
  · intro f child h
    simp only [functionRecognizedTags, List.mem_cons, List.not_mem_nil, or_false, not_or] at h
    obtain ⟨h1, h2, h3, h4, h5, h6, h7, h8, h9, h10, h11, h12, h13, h14, h15, h16, h17, h18, h19, h20⟩ := h
    simp [funcStep, h1, h2, h3, h4, h5, h6, h7, h8, h9, h10, h11, h12, h13, h14, h15, h16, h17, h18, h19, h20]

/-- C3 witness: a synthetic `banana_tag` child fails with the tag named in
each of the five contexts; an `ERROR` child is skipped at top level but
fails inside a contract body. -/
theorem c3_witness :
    sourceUnitStep (demoUnit, none) bananaNode
      = .error (.parsingException ("Unknown tree-sitter node for source_unit: " ++ "banana_tag"))
  ∧ sourceUnitStep (demoUnit, none) (tok "ERROR") = .ok (demoUnit, none)
  ∧ contractStep demoInterfaceBase bananaNode
      = .error (.parsingException ("Unknown tree-sitter node for contract_declaration: " ++ "banana_tag"))
  ∧ contractBodyStep demoInterfaceBase (tok "ERROR")
      = .error (.parsingException ("Unknown tree-sitter node type for contract member: " ++ "ERROR"))
  ∧ inheritanceArgStep {} bananaNode
      = .error (.parsingException ("Unknown tree-sitter node type for call_arguments: " ++ "banana_tag"))
  ∧ funcStep { kind := .function } bananaNode
      = .error (.parsingException ("Unknown tree-sitter node in function_definition: " ++ "banana_tag")) :=
  ⟨c3_fail_closed_dispatch.1 demoUnit none bananaNode (by decide),
   c3_fail_closed_dispatch.2.1 demoUnit none (tok "ERROR") rfl,
   c3_fail_closed_dispatch.2.2.1 demoInterfaceBase bananaNode (by decide),
   c3_fail_closed_dispatch.2.2.2.1 demoInterfaceBase (tok "ERROR") (by decide),
   c3_fail_closed_dispatch.2.2.2.2.1 {} bananaNode (by decide),
   c3_fail_closed_dispatch.2.2.2.2.2 { kind := .function } bananaNode (by decide)⟩

/-- C4: positional inheritance arguments work as specified — `B(1, 2)`
yields the two positional arguments in source order and no struct-argument
set — but a brace-delimited call argument (`B(\x7bx: 1\x7d)`) raises a
`ParsingException` instead of producing the struct-argument set: the
struct-argument branch guards on a length of one while its own assertion
requires distinct left- and right-brace children, so (third conjunct) no
successful call-argument dispatch ever populates the struct-argument
slot. -/
theorem c4_inheritance_arguments :
    parse_inheritance_specifier demoSpecPositional
      = .ok { name := some ⟨udtB⟩,
              arguments := [⟨callArg1⟩, ⟨callArg2⟩] }
  ∧ parse_inheritance_specifier demoSpecStruct
      = .error (.parsingException "Unknown tree-sitter node type for call_arguments: call_argument")
  ∧ (∀ (s : InheritanceSpecifier) (child : Node) (s' : InheritanceSpecifier),
        inheritanceArgStep s child = .ok s' →
        s'.structArguments = s.structArguments) := by
  refine ⟨rfl, rfl, ?_⟩
  intro s child s' h
  unfold inheritanceArgStep at h
  split_ifs at h with h1 h2
  · injection h with h; subst h; rfl
  · exact absurd (by simpa [Node.pyLen] using h2) (by simpa [Node.pyLen] using h1)
  · injection h with h; subst h; rfl

/-- C4 witness: a successful positional call-argument dispatch leaves the
struct-argument slot untouched. -/
theorem c4_witness :
    ({ arguments := [parse_expression callArg1] } : InheritanceSpecifier).structArguments
      = ({} : InheritanceSpecifier).structArguments :=
  c4_inheritance_arguments.2.2 {} callArg1
    { arguments := [parse_expression callArg1] } rfl

/-- C5: a `fallback_receive_definition` whose first child is the `receive`
keyword token lowers to the receive variant, and one whose first child is
the `fallback` keyword token lowers to the fallback variant; in both cases
the result has no name (stated for nodes without an `identifier` child, as
the grammar produces for fallback and receive definitions). -/
theorem c5_fallback_receive_variant :
    (∀ (node : Node) (f : Callable),
        node.type = "fallback_receive_definition" →
        (node.children.map Node.type).head? = some "receive" →
        "identifier" ∉ node.children.map Node.type →
        parse_functions node = .ok f →
        f.kind = CallableKind.receive ∧ f.name = none)
  ∧ (∀ (node : Node) (f : Callable),
        node.type = "fallback_receive_definition" →
        (node.children.map Node.type).head? = some "fallback" →
        "identifier" ∉ node.children.map Node.type →
        parse_functions node = .ok f →
        f.kind = CallableKind.fallback ∧ f.name = none) := by
  constructor
  · intro node f htype hhead hni hp
    cases hc : node.children with
    | nil => rw [hc] at hhead; simp at hhead
    | cons c0 rest =>
      rw [hc] at hhead
      simp only [List.map_cons, List.head?_cons, Option.some.injEq] at hhead
      rw [hc] at hni
      unfold parse_functions at hp
      rw [htype, hc] at hp
      simp only [Node.eqStr] at hp
      simp only [hhead] at hp
      replace hp : List.foldlM funcStep { kind := CallableKind.receive } (c0 :: rest)
          = Except.ok f := hp
      have hall : ∀ c ∈ c0 :: rest, c.type ≠ "identifier" := by
        intro c hcm he
        exact hni (he ▸ List.mem_map_of_mem Node.type hcm)
      exact ⟨foldlM_funcStep_kind (c0 :: rest) _ f hp,
             foldlM_funcStep_name (c0 :: rest) _ f hp hall⟩
  · intro node f htype hhead hni hp
    cases hc : node.children with
    | nil => rw [hc] at hhead; simp at hhead
    | cons c0 rest =>
      rw [hc] at hhead
      simp only [List.map_cons, List.head?_cons, Option.some.injEq] at hhead
      rw [hc] at hni
      unfold parse_functions at hp
      rw [htype, hc] at hp
      simp only [Node.eqStr] at hp
      simp only [hhead] at hp
      replace hp : List.foldlM funcStep { kind := CallableKind.fallback } (c0 :: rest)
          = Except.ok f := hp
      have hall : ∀ c ∈ c0 :: rest, c.type ≠ "identifier" := by
        intro c hcm he
        exact hni (he ▸ List.mem_map_of_mem Node.type hcm)
      exact ⟨foldlM_funcStep_kind (c0 :: rest) _ f hp,
             foldlM_funcStep_name (c0 :: rest) _ f hp hall⟩

/-- C5 witness: the concrete `receive() ...` and `fallback() ...` nodes
lower to the respective unnamed variants. -/
theorem c5_witness :
    (({ kind := CallableKind.receive } : Callable).kind = CallableKind.receive
      ∧ ({ kind := CallableKind.receive } : Callable).name = none)
  ∧ (({ kind := CallableKind.fallback } : Callable).kind = CallableKind.fallback
      ∧ ({ kind := CallableKind.fallback } : Callable).name = none) :=
  ⟨c5_fallback_receive_variant.1 receiveDef { kind := CallableKind.receive }
      rfl rfl (by decide) rfl,
   c5_fallback_receive_variant.2 fallbackDef { kind := CallableKind.fallback }
      rfl rfl (by decide) rfl⟩

/-- C6 counterexample: lowering `abstract interface I \x7b \x7d` succeeds
— no invariant violation is raised — and silently sets the abstract flag
on the Interface entity, contradicting the claim that an `abstract` token
under an interface or library declaration is rejected. -/
theorem c6_counterexample :
    parse_contracts demoAbstractInterface
      = .ok { kind := .interface, name := some ⟨"I"⟩, abstract := true } := rfl

/-- C6 (amended): an `abstract` token encountered while lowering any
contract-family declaration — contract, interface or library alike —
silently sets the abstract flag; no validation against the kind is
performed and no error is raised. -/
theorem c6_abstract_any_kind :
    ∀ (c : ContractLike) (child : Node), child.type = "abstract" →
      contractStep c child = .ok { c with abstract := true } := by
  intro c child h
  simp [contractStep, h]

/-- C6 witness: the abstract token applied to an interface entity. -/
theorem c6_witness :
    contractStep demoInterfaceBase (tok "abstract")
      = .ok { demoInterfaceBase with abstract := true } :=
  c6_abstract_any_kind demoInterfaceBase (tok "abstract") rfl

/-- C7 counterexample: a source file containing an error declaration, a
struct declaration, an enum declaration and a user-defined type definition
lowers without raising anything — contradicting the claim that the
unimplemented leaf lowerings raise `UnsupportedConstructError` — and each
owning bucket silently receives a null entity. -/
theorem c7_counterexample :
    parse_source_unit (.mk "source_file" [errDecl, structDecl, enumDecl, udtdDef] "") "e.sol"
      = .ok { fname := "e.sol", customErrors := [.none], structs := [.none],
              enums := [.none], typeDefinitions := [.none] } := rfl

/-- C7 (amended): the lowering of struct, enum, event, error and
user-defined-type declarations is an unimplemented stub that raises
nothing: at source-file level and inside contract bodies alike, the
dispatch succeeds and appends the stub's null result to the owning
bucket. -/
theorem c7_stub_null_entities :
    (∀ (u : SourceUnit) (cv : Option ContractLike) (child : Node),
        child.type = "error_declaration" →
        sourceUnitStep (u, cv) child
          = .ok ({ u with customErrors := u.customErrors ++ [PyNone.none] }, cv))
  ∧ (∀ (u : SourceUnit) (cv : Option ContractLike) (child : Node),
        child.type = "struct_declaration" →
        sourceUnitStep (u, cv) child
          = .ok ({ u with structs := u.structs ++ [PyNone.none] }, cv))
  ∧ (∀ (u : SourceUnit) (cv : Option ContractLike) (child : Node),
        child.type = "enum_declaration" →
        sourceUnitStep (u, cv) child
          = .ok ({ u with enums := u.enums ++ [PyNone.none] }, cv))
  ∧ (∀ (u : SourceUnit) (cv : Option ContractLike) (child : Node),
        child.type = "user_defined_type_definition" →
        sourceUnitStep (u, cv) child
          = .ok ({ u with typeDefinitions := u.typeDefinitions ++ [PyNone.none] }, cv))
  ∧ (∀ (c : ContractLike) (child : Node),
        child.type = "error_declaration" →
        contractBodyStep c child
          = .ok { c with customErrors := c.customErrors ++ [PyNone.none] })
  ∧ (∀ (c : ContractLike) (child : Node),
        child.type = "struct_declaration" →
        contractBodyStep c child
          = .ok { c with structs := c.structs ++ [PyNone.none] })
  ∧ (∀ (c : ContractLike) (child : Node),
        child.type = "enum_declaration" →
        contractBodyStep c child
          = .ok { c with enums := c.enums ++ [PyNone.none] })
  ∧ (∀ (c : ContractLike) (child : Node),
        child.type = "event_definition" →
        contractBodyStep c child
          = .ok { c with events := c.events ++ [PyNone.none] })
  ∧ (∀ (c : ContractLike) (child : Node),
        child.type = "user_defined_type_definition" →
        contractBodyStep c child
          = .ok { c with typeDefinitions := c.typeDefinitions ++ [PyNone.none] }) := by
  refine ⟨?_, ?_, ?_, ?_, ?_, ?_, ?_, ?_, ?_⟩ <;>
    first
      | (intro u cv child h
         simp [sourceUnitStep, h, parse_error_declaration, parse_struct_declaration,
               parse_enum_declaration, parse_user_defined_type_definition])
      | (intro c child h
         simp [contractBodyStep, h, parse_error_declaration, parse_struct_declaration,
               parse_enum_declaration, parse_event_definition,
               parse_user_defined_type_definition])

/-- C7 witness: the nine stub dispatches at concrete nodes and states. -/
theorem c7_witness :
    sourceUnitStep (demoUnit, none) errDecl
      = .ok ({ demoUnit with customErrors := demoUnit.customErrors ++ [PyNone.none] }, none)
  ∧ sourceUnitStep (demoUnit, none) structDecl
      = .ok ({ demoUnit with structs := demoUnit.structs ++ [PyNone.none] }, none)
  ∧ sourceUnitStep (demoUnit, none) enumDecl
      = .ok ({ demoUnit with enums := demoUnit.enums ++ [PyNone.none] }, none)
  ∧ sourceUnitStep (demoUnit, none) udtdDef
      = .ok ({ demoUnit with typeDefinitions := demoUnit.typeDefinitions ++ [PyNone.none] }, none)
  ∧ contractBodyStep demoInterfaceBase errDecl
      = .ok { demoInterfaceBase with customErrors := demoInterfaceBase.customErrors ++ [PyNone.none] }
  ∧ contractBodyStep demoInterfaceBase structDecl
      = .ok { demoInterfaceBase with structs := demoInterfaceBase.structs ++ [PyNone.none] }
  ∧ contractBodyStep demoInterfaceBase enumDecl
      = .ok { demoInterfaceBase with enums := demoInterfaceBase.enums ++ [PyNone.none] }
  ∧ contractBodyStep demoInterfaceBase eventDef
      = .ok { demoInterfaceBase with events := demoInterfaceBase.events ++ [PyNone.none] }
  ∧ contractBodyStep demoInterfaceBase udtdDef
      = .ok { demoInterfaceBase with typeDefinitions := demoInterfaceBase.typeDefinitions ++ [PyNone.none] } :=
  ⟨c7_stub_null_entities.1 demoUnit none errDecl rfl,
   c7_stub_null_entities.2.1 demoUnit none structDecl rfl,
   c7_stub_null_entities.2.2.1 demoUnit none enumDecl rfl,
   c7_stub_null_entities.2.2.2.1 demoUnit none udtdDef rfl,
   c7_stub_null_entities.2.2.2.2.1 demoInterfaceBase errDecl rfl,
   c7_stub_null_entities.2.2.2.2.2.1 demoInterfaceBase structDecl rfl,
   c7_stub_null_entities.2.2.2.2.2.2.1 demoInterfaceBase enumDecl rfl,
   c7_stub_null_entities.2.2.2.2.2.2.2.1 demoInterfaceBase eventDef rfl,
   c7_stub_null_entities.2.2.2.2.2.2.2.2 demoInterfaceBase udtdDef rfl⟩

/-- C8: the three import-directive forms lower as specified — a plain
source import records only the path, a module alias records path and
alias, and a brace-delimited multiple import records the imported
identifiers in source order with a renaming entry only for the aliased
one. -/
theorem c8_import_forms :
    parse_import_directive imp1 = .ok { importPath := some "a.sol" }
  ∧ parse_import_directive imp2
      = .ok { importPath := some "a.sol", aliasText := some "A" }
  ∧ parse_import_directive imp3
      = .ok { importPath := some "a.sol", imported := [⟨"X"⟩, ⟨"Z"⟩],
              renamingMap := [(⟨"X"⟩, ⟨"Y"⟩)] } :=
  ⟨rfl, rfl, rfl⟩

/-! Helper lemmas lifting the boolean equality of struct entities to
propositional equality. -/

/-- Identifier comparison agrees with equality. -/
theorem identifierBeq_iff {a b : Identifier} :
    Identifier.beq a b = true ↔ a = b := by
  cases a
  cases b
  simp [Identifier.beq]

/-- Struct-member comparison agrees with equality. -/
theorem structMemberBeq_iff {a b : StructMember} :
    StructMember.beq a b = true ↔ a = b := by
  cases a
  cases b
  simp [StructMember.beq, identifierBeq_iff]

/-- Member-list comparison agrees with equality. -/
theorem membersBeq_iff :
    ∀ {xs ys : List StructMember}, membersBeq xs ys = true ↔ xs = ys := by
  intro xs
  induction xs with
  | nil =>
    intro ys
    cases ys <;> simp [membersBeq]
  | cons a xs ih =>
    intro ys
    cases ys with
    | nil => simp [membersBeq]
    | cons b ys => simp [membersBeq, structMemberBeq_iff, ih]

/-- C9: structural struct equality — two structs compare equal exactly
when they have the same name and the same ordered member list; in
particular the struct `P` with members `x, y` (both `uint256`) is unequal
to the struct `P` with the same members in swapped order. -/
theorem c9_struct_structural_equality :
    (∀ s1 s2 : Struct,
        Struct.beq s1 s2 = true ↔ (s1.name = s2.name ∧ s1.members = s2.members))
  ∧ Struct.beq ⟨⟨"P"⟩, [⟨⟨"x"⟩, "uint256"⟩, ⟨⟨"y"⟩, "uint256"⟩]⟩
               ⟨⟨"P"⟩, [⟨⟨"y"⟩, "uint256"⟩, ⟨⟨"x"⟩, "uint256"⟩]⟩ = false := by
  constructor
  · intro s1 s2
    simp [Struct.beq, identifierBeq_iff, membersBeq_iff]
  · decide

/-- C10: comparing a struct against any value that is not a struct
instance yields `False` (rather than raising or deferring): the
`isinstance` guard of `Struct.__eq__` sends every non-`Struct` operand,
`None` included, to the `return False` branch. -/
theorem c10_eq_non_struct_false :
    ∀ (s : Struct) (v : PyValue), PyValue.isStructInstance v = false →
      Struct.eqPy s v = false := by
  intro s v h
  cases v with
  | structV t => exact absurd h (by simp [PyValue.isStructInstance])
  | noneV => rfl
  | intV n => rfl
  | strV x => rfl
  | boolV b => rfl

/-- C10 witness: the empty struct `P` compared against `None`. -/
theorem c10_witness :
    PyValue.isStructInstance PyValue.noneV = false
  ∧ Struct.eqPy ⟨⟨"P"⟩, []⟩ PyValue.noneV = false :=
  ⟨rfl, c10_eq_non_struct_false ⟨⟨"P"⟩, []⟩ PyValue.noneV rfl⟩

end Regast
